import Mathlib

/-!
Verification of the session/container lifecycle core of the SudoOpsCode
repository, shallowly embedded in Lean 4.

The definitions below are transcribed from the TypeScript sources:
* `src/backend/src/services/sessionManager.ts` (class `SessionManager`)
* `src/backend/src/routes/sessions.ts` (the `/start` and `/:sessionId/validate`
  handlers)
* `src/backend/src/services/containerManager.ts` (class `ContainerManager`)
* `src/backend/src/services/progressService.ts` (class `ProgressService`)
* `src/backend/src/services/websocketService.ts` (class `WebSocketService`)

Timestamps are modelled as natural numbers of milliseconds.  Each `new Date()`
or `Date.now()` call in the source is a distinct clock sample, so functions
that read the clock several times take one parameter per read, in source
order.  JavaScript `Map`s keyed by freshly generated UUIDs are modelled as
lists of records; `Set`s of pending keys as lists of pairs.
-/

namespace SudoOps

/-- Session status, from `src/backend/src/types/session.ts`:
`status: "active" | "expired" | "ended"`. -/
inductive SessionStatus where
  | active
  | expired
  | ended
deriving DecidableEq, Repr

/-- The `Session` record of `src/backend/src/types/session.ts`. -/
structure Session where
  id : String
  userId : Nat
  challengeId : Nat
  containerId : String
  status : SessionStatus
  createdAt : Nat
  lastActivity : Nat
  expiresAt : Nat
deriving DecidableEq, Repr

/-- `private readonly MAX_SESSIONS_PER_USER = 1` in `SessionManager`. -/
def MAX_SESSIONS_PER_USER : Nat := 1

/-- `private readonly MAX_TOTAL_SESSIONS = 15` in `SessionManager`. -/
def MAX_TOTAL_SESSIONS : Nat := 15

/-- The state of a `SessionManager` instance: the `sessions` map (modelled as
a list of records), the `pendingSessions` set of `(userId, challengeId)` keys,
and the two constructor-injected timeout fields. -/
structure SMState where
  sessions : List Session
  pendingSessions : List (Nat × Nat)
  idleTimeoutMs : Nat
  maxSessionTimeMs : Nat
deriving DecidableEq, Repr

/-- A fresh `SessionManager` with the constructor defaults
(`10 * 60 * 1000` idle, `15 * 60 * 1000` max). -/
def initState : SMState :=
  { sessions := []
    pendingSessions := []
    idleTimeoutMs := 10 * 60 * 1000
    maxSessionTimeMs := 15 * 60 * 1000 }

/-- `getSession(sessionId)`: `this.sessions.get(sessionId)`. -/
def getSession (st : SMState) (sessionId : String) : Option Session :=
  st.sessions.find? (fun s => s.id == sessionId)

/-- `getActiveSessions()`: all sessions with `s.status === "active"`. -/
def getActiveSessions (st : SMState) : List Session :=
  st.sessions.filter (fun s => s.status == SessionStatus.active)

/-- `getUserSessions(userId)`: all sessions with
`s.userId === userId && s.status === "active"`. -/
def getUserSessions (st : SMState) (userId : Nat) : List Session :=
  st.sessions.filter
    (fun s => s.userId == userId && s.status == SessionStatus.active)

/-- The admission decision `{ allowed: boolean; reason?: string }`. -/
structure Decision where
  allowed : Bool
  reason : Option String
deriving DecidableEq, Repr

/-- The per-user denial reason string built by `canCreateSession`:
`` `Maximum ${this.MAX_SESSIONS_PER_USER} active session(s) per user` ``. -/
def perUserDenialReason : String :=
  s!"Maximum {MAX_SESSIONS_PER_USER} active session(s) per user"

/-- The capacity denial reason string of `canCreateSession`. -/
def capacityDenialReason : String :=
  "System at capacity. Please try again later."

/-- `canCreateSession(userId)` (sessionManager.ts lines 109-129): deny when the
user's live active-session count reaches `MAX_SESSIONS_PER_USER`, otherwise
deny when the total live active count reaches `MAX_TOTAL_SESSIONS`, otherwise
allow. -/
def canCreateSession (st : SMState) (userId : Nat) : Decision :=
  if (getUserSessions st userId).length ≥ MAX_SESSIONS_PER_USER then
    { allowed := false, reason := some perUserDenialReason }
  else if (getActiveSessions st).length ≥ MAX_TOTAL_SESSIONS then
    { allowed := false, reason := some capacityDenialReason }
  else
    { allowed := true, reason := none }

/-- `createSession(userId, challengeId, containerId)` (lines 131-153).
`freshId` stands for `crypto.randomUUID()`.  The function reads the clock
three times, in this source order:
`createdAt: new Date()` (`t1`), `lastActivity: new Date()` (`t2`),
`expiresAt: new Date(Date.now() + this.maxSessionTimeMs)` (`t3`).
The new record is inserted unconditionally (no admission check here). -/
def createSession (st : SMState) (userId challengeId : Nat)
    (containerId freshId : String) (t1 t2 t3 : Nat) : Session × SMState :=
  let session : Session :=
    { id := freshId
      userId := userId
      challengeId := challengeId
      containerId := containerId
      status := SessionStatus.active
      createdAt := t1
      lastActivity := t2
      expiresAt := t3 + st.maxSessionTimeMs }
  (session, { st with sessions := st.sessions ++ [session] })

/-- `updateActivity(sessionId)`: if the session is present, set its
`lastActivity` to `new Date()` (clock sample `t`); otherwise no-op. -/
def updateActivity (st : SMState) (sessionId : String) (t : Nat) : SMState :=
  { st with
    sessions := st.sessions.map
      (fun s => if s.id == sessionId then { s with lastActivity := t } else s) }

/-- `endSession(sessionId)`: if present, set status to `"ended"` and delete
from the map.  The net registry effect is removal of the record (the mutated
status lives only on the removed object). -/
def endSession (st : SMState) (sessionId : String) : SMState :=
  match getSession st sessionId with
  | none => st
  | some _ =>
      { st with sessions := st.sessions.filter (fun s => !(s.id == sessionId)) }

/-- `markExpired(sessionId)`: like `endSession` but with status `"expired"`;
the net registry effect is again removal. -/
def markExpired (st : SMState) (sessionId : String) : SMState :=
  match getSession st sessionId with
  | none => st
  | some _ =>
      { st with sessions := st.sessions.filter (fun s => !(s.id == sessionId)) }

/-- `getExpiredSessions()` (lines 206-214), at clock sample `now`:
`session.status === "active" && (idleExpired || maxTimeExpired)` where
`idleExpired = now - lastActivity > idleTimeoutMs` and
`maxTimeExpired = now > expiresAt`.  (JavaScript's possibly negative
`now - lastActivity` compares to the non-negative timeout exactly as the
truncated natural subtraction does.) -/
def getExpiredSessions (st : SMState) (now : Nat) : List Session :=
  st.sessions.filter
    (fun s =>
      s.status == SessionStatus.active &&
        (decide (now - s.lastActivity > st.idleTimeoutMs) ||
          decide (now > s.expiresAt)))

/-- `isSessionPending(userId, challengeId)`. -/
def isSessionPending (st : SMState) (userId challengeId : Nat) : Bool :=
  st.pendingSessions.contains (userId, challengeId)

/-- `markSessionPending(userId, challengeId)` (a `Set.add`). -/
def markSessionPending (st : SMState) (userId challengeId : Nat) : SMState :=
  if st.pendingSessions.contains (userId, challengeId) then st
  else { st with pendingSessions := st.pendingSessions ++ [(userId, challengeId)] }

/-- `clearSessionPending(userId, challengeId)` (a `Set.delete`). -/
def clearSessionPending (st : SMState) (userId challengeId : Nat) : SMState :=
  { st with
    pendingSessions :=
      st.pendingSessions.filter (fun k => !(k == (userId, challengeId))) }

/-- `cleanupStaleSessions()` (lines 253-306), at clock sample `now`: every
session returned by `getExpiredSessions` is marked expired — both on the
success path and in the `catch` branch after a failed container removal, so
the registry effect is unconditional removal of each expired session. -/
def cleanupStaleSessions (st : SMState) (now : Nat) : SMState :=
  (getExpiredSessions st now).foldl (fun acc s => markExpired acc s.id) st

/-- One public `SessionManager` operation, with the clock samples it takes. -/
inductive SMOp where
  | create (userId challengeId : Nat) (containerId freshId : String)
      (t1 t2 t3 : Nat)
  | endS (sessionId : String)
  | markExp (sessionId : String)
  | activity (sessionId : String) (t : Nat)
  | cleanup (now : Nat)
deriving DecidableEq, Repr

/-- Apply one public operation to a `SessionManager` state. -/
def applyOp (st : SMState) : SMOp → SMState
  | SMOp.create u c k f t1 t2 t3 => (createSession st u c k f t1 t2 t3).2
  | SMOp.endS sid => endSession st sid
  | SMOp.markExp sid => markExpired st sid
  | SMOp.activity sid t => updateActivity st sid t
  | SMOp.cleanup now => cleanupStaleSessions st now

/-- Run a sequence of public operations from a given state. -/
def runOps (st : SMState) (ops : List SMOp) : SMState :=
  ops.foldl applyOp st

/-!
### Guarded reachability

`ReachG st tm` holds when `st` is reachable from the fresh manager by public
operations in which every `createSession` call was admitted by
`canCreateSession` immediately beforehand (the discipline the `/start` route
follows), under a monotone wall clock whose latest sample is at most `tm`.
-/

/-- Guard-respecting, clock-monotone reachability of `SessionManager`
states.  The index is an upper bound that every clock sample seen so far
respects. -/
inductive ReachG : SMState → Nat → Prop where
  | init : ReachG initState 0
  | creat {st tm u c k f t1 t2 t3} :
      ReachG st tm →
      (canCreateSession st u).allowed = true →
      tm ≤ t1 → t1 ≤ t2 → t2 ≤ t3 →
      ReachG (createSession st u c k f t1 t2 t3).2 t3
  | endS {st tm sid} : ReachG st tm → ReachG (endSession st sid) tm
  | markExp {st tm sid} : ReachG st tm → ReachG (markExpired st sid) tm
  | activity {st tm sid t} :
      ReachG st tm → tm ≤ t → ReachG (updateActivity st sid t) t
  | cleanup {st tm now} :
      ReachG st tm → tm ≤ now → ReachG (cleanupStaleSessions st now) now

/-!
### ContainerManager

`containerManager.ts`.  Container-engine interactions are modelled by an
environment record saying how each engine call would answer, and the
operations produce an event trace alongside their result, so that ordering
facts ("the stream was consumed to its end before the exec was inspected")
are statable.
-/

/-- Events emitted by `validateChallenge` in the order the source performs
them. -/
inductive DockerEvent where
  | execCreate (cmd : List String) (attachStdout attachStderr : Bool)
  | streamData (chunk : String)
  | streamEnd
  | execInspect
deriving DecidableEq, Repr

/-- Environment for one `validateChallenge` call: whether
`<challengeDir>/validate.sh` exists on the host, and the outcome of each
engine interaction.  A successful `exec.start` delivers the stream's chunks,
which the source consumes until the `"end"` event. -/
structure ValidateEnv where
  validateScriptExists : Bool
  execCreateResult : Except String Unit
  execStartResult : Except String (List String)
  inspectResult : Except String (Option Int)
deriving Repr

/-- `validateChallenge(containerId, challengeId)` (containerManager.ts lines
177-229).  If `validate.sh` is missing the function throws before touching
the engine.  Otherwise everything inside the `try` — exec creation, stream
consumption, inspection — is covered by the `catch`, which returns `false`.
On full success the result is `exitCode === 0` (a `null` exit code compares
unequal).  The returned trace records the engine interactions; `streamEnd`
is emitted when the `"end"` event has been awaited, i.e. the output was
consumed to end-of-stream. -/
def validateChallenge (env : ValidateEnv) : List DockerEvent × Except String Bool :=
  if env.validateScriptExists = false then
    ([], Except.error "Validation script not found")
  else
    match env.execCreateResult with
    | Except.error _ => ([], Except.ok false)
    | Except.ok _ =>
        let created := [DockerEvent.execCreate
          ["/bin/bash", "/challenge/validate.sh"] true true]
        match env.execStartResult with
        | Except.error _ => (created, Except.ok false)
        | Except.ok chunks =>
            let drained :=
              created ++ chunks.map DockerEvent.streamData ++ [DockerEvent.streamEnd]
            match env.inspectResult with
            | Except.error _ => (drained ++ [DockerEvent.execInspect], Except.ok false)
            | Except.ok exitCode =>
                (drained ++ [DockerEvent.execInspect],
                  Except.ok (exitCode == some 0))

/-- Events emitted by `createContainer` in source order.
`setupStreamDrained` would be emitted by code that consumes the setup exec's
output stream to end-of-stream; the source awaits only `exec.start({})` and
never consumes that stream, so no execution path emits it. -/
inductive CreateEvent where
  | ensureImage
  | containerCreate
  | containerStart
  | setupExecCreate (cmd : List String) (attachStdout attachStderr : Bool)
  | setupExecStart
  | setupStreamDrained
  | returned (containerId : String)
deriving DecidableEq, Repr

/-- Environment for one `createContainer` call. -/
structure CreateEnv where
  challengeDirExists : Bool
  setupScriptExists : Bool
  containerId : String
deriving Repr

/-- `createContainer(challengeId, userId)` (containerManager.ts lines
84-150): ensure the image, check the challenge directory (throwing when
absent), create and start the container; if `<dir>/setup.sh` exists, create
the setup exec `["/bin/bash","/challenge/setup.sh"]` with stdout/stderr
attached and start it (`await exec.start({})`) — nothing reads the returned
stream — then return the container id. -/
def createContainer (env : CreateEnv) : List CreateEvent × Except String String :=
  if env.challengeDirExists = false then
    ([CreateEvent.ensureImage], Except.error "Challenge directory not found")
  else
    let base := [CreateEvent.ensureImage, CreateEvent.containerCreate,
      CreateEvent.containerStart]
    let withSetup :=
      if env.setupScriptExists then
        base ++ [CreateEvent.setupExecCreate
          ["/bin/bash", "/challenge/setup.sh"] true true,
          CreateEvent.setupExecStart]
      else base
    (withSetup ++ [CreateEvent.returned env.containerId],
      Except.ok env.containerId)

/-!
### ProgressService

`progressService.ts`.  The `attempts` and `solves` tables are modelled as
append-only lists of rows.
-/

/-- The progress database: `attempts (user_id, challenge_id, success)` rows
and `solves (user_id, challenge_id)` rows. -/
structure ProgressDB where
  attempts : List (Nat × Nat × Bool)
  solves : List (Nat × Nat)
deriving DecidableEq, Repr

/-- `hasSolved(userId, challengeId)`: `SELECT id FROM solves WHERE user_id =
? AND challenge_id = ?` is non-empty. -/
def hasSolved (db : ProgressDB) (userId challengeId : Nat) : Bool :=
  db.solves.any (fun r => r.1 == userId && r.2 == challengeId)

/-- `recordValidation(userId, challengeId, success, alreadySolved)`
(progressService.ts lines 73-127): in one transaction, insert the attempt
row; then, only when `success && !alreadySolved`, insert the solve row
unless one already exists. -/
def recordValidation (db : ProgressDB) (userId challengeId : Nat)
    (success alreadySolved : Bool) : ProgressDB :=
  let db1 := { db with attempts := db.attempts ++ [(userId, challengeId, success)] }
  if success && !alreadySolved then
    if hasSolved db1 userId challengeId then db1
    else { db1 with solves := db1.solves ++ [(userId, challengeId)] }
  else db1

/-!
### HTTP handlers (`routes/sessions.ts`)
-/

/-- Responses of `POST /sessions/start`, with the payload fields the source
sends. -/
inductive StartResponse where
  | badRequest
  | conflictPending
  | tooMany (reason : String)
  | okExisting (sessionId : String) (expiresAt : Nat) (message : String)
  | okCreated (sessionId : String) (expiresAt : Nat)
  | serverError
deriving DecidableEq, Repr

/-- The `POST /sessions/start` handler (sessions.ts lines 10-77), in source
order: 400 on a missing/falsy `challengeId` or `userId`; 409 when the
`(user, challenge)` pending key is set; 429 when `canCreateSession` denies;
200 with `"Existing session found"` when the user already has an active
session for this challenge; otherwise mark pending, create the container
(`containerResult` is the engine's answer), create the session (`freshId`,
clock samples `t1 t2 t3`), and always clear the pending key. -/
def startHandler (st : SMState) (userId : Nat) (challengeId? : Option Nat)
    (containerResult : Except String String) (freshId : String)
    (t1 t2 t3 : Nat) : StartResponse × SMState :=
  match challengeId? with
  | none => (StartResponse.badRequest, st)
  | some challengeId =>
      if challengeId == 0 || userId == 0 then (StartResponse.badRequest, st)
      else if isSessionPending st userId challengeId then
        (StartResponse.conflictPending, st)
      else
        let canCreate := canCreateSession st userId
        if canCreate.allowed = false then
          (StartResponse.tooMany (canCreate.reason.getD ""), st)
        else
          match (getUserSessions st userId).find?
              (fun s => s.challengeId == challengeId) with
          | some existing =>
              (StartResponse.okExisting existing.id existing.expiresAt
                "Existing session found", st)
          | none =>
              let st1 := markSessionPending st userId challengeId
              match containerResult with
              | Except.error _ =>
                  (StartResponse.serverError,
                    clearSessionPending st1 userId challengeId)
              | Except.ok containerId =>
                  let created :=
                    createSession st1 userId challengeId containerId freshId t1 t2 t3
                  (StartResponse.okCreated created.1.id created.1.expiresAt,
                    clearSessionPending created.2 userId challengeId)

/-- Responses of `POST /sessions/:sessionId/validate`. -/
inductive ValidateResponse where
  | notFound
  | forbidden
  | notActive
  | okSuccess (message : String) (points : Nat)
  | okFailure (message : String)
  | serverError
deriving DecidableEq, Repr

/-- The `POST /sessions/:sessionId/validate` handler (sessions.ts lines
80-196): 404 / 403 / 400 on the session checks; then `hasSolved`;
then `validateChallenge` (an `Except.error` propagates to the catch-all 500
before anything is recorded); then `recordValidation` in one transaction
(`recordOk = false` models a failed transaction: rollback, then 500); on a
valid result, `getChallengePoints` (`pointsResult`), container removal
(`removeOk` — a failure is caught and skips `endSession`), and a 200 body
with `points = hasSolved ? 0 : points`; on an invalid result a 200 failure
body. -/
def validateHandler (st : SMState) (db : ProgressDB) (userId : Nat)
    (sessionId : String) (validationResult : Except String Bool)
    (recordOk : Bool) (pointsResult : Except String Nat) (removeOk : Bool) :
    ValidateResponse × ProgressDB × SMState :=
  match getSession st sessionId with
  | none => (ValidateResponse.notFound, db, st)
  | some session =>
      if !(session.userId == userId) then (ValidateResponse.forbidden, db, st)
      else if !(session.status == SessionStatus.active) then
        (ValidateResponse.notActive, db, st)
      else
        let alreadySolved := hasSolved db userId session.challengeId
        match validationResult with
        | Except.error _ => (ValidateResponse.serverError, db, st)
        | Except.ok isValid =>
            if recordOk = false then (ValidateResponse.serverError, db, st)
            else
              let db1 := recordValidation db userId session.challengeId
                isValid alreadySolved
              if isValid then
                match pointsResult with
                | Except.error _ => (ValidateResponse.serverError, db1, st)
                | Except.ok points =>
                    let st1 := if removeOk then endSession st sessionId else st
                    (ValidateResponse.okSuccess
                      "Congratulations! Challenge solved!"
                      (if alreadySolved then 0 else points), db1, st1)
              else
                (ValidateResponse.okFailure "Validation failed. Keep trying!",
                  db1, st)

/-- The validate endpoint with `containerManager.validateChallenge` plugged
in: the handler receives exactly what `validateChallenge env` returns. -/
def validateEndpoint (st : SMState) (db : ProgressDB) (userId : Nat)
    (sessionId : String) (env : ValidateEnv) (recordOk : Bool)
    (pointsResult : Except String Nat) (removeOk : Bool) :
    ValidateResponse × ProgressDB × SMState :=
  validateHandler st db userId sessionId (validateChallenge env).2
    recordOk pointsResult removeOk

/-!
### TerminalGateway (`websocketService.ts`)

The model follows one established terminal connection.  JavaScript runs the
`cleanup` closure and `closeConnection` synchronously on a single event-loop
thread, so each handler runs to completion before the next event is
processed; a list of events therefore determines the behaviour.
-/

/-- The per-connection record (`ConnectionState`): only the single-shot
`cleanedUp` latch matters for the teardown count. -/
structure ConnState where
  cleanedUp : Bool
deriving DecidableEq, Repr

/-- The gateway's view of one session: the registry entry for the session id
(`none` once `connections.delete` ran) and a ghost counter of how many times
the PTY teardown (stream destroy + record removal) was executed. -/
structure GatewayState where
  conn : Option ConnState
  teardowns : Nat
deriving DecidableEq, Repr

/-- State right after `handleConnection` registers the connection:
`{ ws, stream, cleanedUp: false }` is in the map and no teardown has run. -/
def gatewayInit : GatewayState :=
  { conn := some { cleanedUp := false }, teardowns := 0 }

/-- The `cleanup` closure (websocketService.ts lines 136-167): look up the
record; return if absent or already latched; otherwise flip `cleanedUp`,
destroy the stream (via `setImmediate`, once per latch flip) and delete the
record in the `finally`. -/
def cleanup (g : GatewayState) : GatewayState :=
  match g.conn with
  | none => g
  | some c =>
      if c.cleanedUp then g
      else { conn := none, teardowns := g.teardowns + 1 }

/-- `closeConnection(sessionId)` (lines 206-242): the same guard — return if
the record is absent or latched; otherwise latch, close the socket, destroy
the stream, delete the record. -/
def closeConnection (g : GatewayState) : GatewayState :=
  match g.conn with
  | none => g
  | some c =>
      if c.cleanedUp then g
      else { conn := none, teardowns := g.teardowns + 1 }

/-- Events that can reach the teardown paths of one connection. -/
inductive TermEvent where
  | wsClose
  | wsError
  | streamError
  | streamEnd
  | closeConnectionCall
deriving DecidableEq, Repr

/-- Dispatch one event: the four socket/stream events invoke the `cleanup`
closure, an external `closeConnection(sessionId)` call invokes
`closeConnection`. -/
def handleTermEvent (g : GatewayState) : TermEvent → GatewayState
  | TermEvent.wsClose => cleanup g
  | TermEvent.wsError => cleanup g
  | TermEvent.streamError => cleanup g
  | TermEvent.streamEnd => cleanup g
  | TermEvent.closeConnectionCall => closeConnection g

/-- Process a sequence of events against one registered connection. -/
def runTermEvents (g : GatewayState) (events : List TermEvent) : GatewayState :=
  events.foldl handleTermEvent g

/-!
## Supporting lemmas
-/

/-- Every session held in the registry has status `"active"`. -/
def allActive (st : SMState) : Prop :=
  ∀ s ∈ st.sessions, s.status = SessionStatus.active

theorem endSession_sessions_sublist (st : SMState) (sid : String) :
    (endSession st sid).sessions.Sublist st.sessions := by
  unfold endSession
  split
  · exact List.Sublist.refl _
  · exact List.filter_sublist _

theorem markExpired_sessions_sublist (st : SMState) (sid : String) :
    (markExpired st sid).sessions.Sublist st.sessions := by
  unfold markExpired
  split
  · exact List.Sublist.refl _
  · exact List.filter_sublist _

theorem foldl_markExpired_sessions_sublist (l : List Session) :
    ∀ st : SMState,
      ((l.foldl (fun acc s => markExpired acc s.id) st).sessions).Sublist
        st.sessions := by
  induction l with
  | nil => intro st; exact List.Sublist.refl _
  | cons a l ih =>
      intro st
      exact (ih (markExpired st a.id)).trans (markExpired_sessions_sublist st a.id)

theorem cleanupStaleSessions_sessions_sublist (st : SMState) (now : Nat) :
    (cleanupStaleSessions st now).sessions.Sublist st.sessions :=
  foldl_markExpired_sessions_sublist _ st

theorem allActive_createSession (st : SMState) (u c : Nat) (k f : String)
    (t1 t2 t3 : Nat) (h : allActive st) :
    allActive (createSession st u c k f t1 t2 t3).2 := by
  intro s hs
  unfold createSession at hs
  simp only [List.mem_append, List.mem_singleton] at hs
  rcases hs with hs | hs
  · exact h s hs
  · subst hs; rfl

theorem allActive_updateActivity (st : SMState) (sid : String) (t : Nat)
    (h : allActive st) : allActive (updateActivity st sid t) := by
  intro s hs
  unfold updateActivity at hs
  simp only [List.mem_map] at hs
  obtain ⟨a, ha, rfl⟩ := hs
  split
  · exact h a ha
  · exact h a ha

theorem allActive_endSession (st : SMState) (sid : String) (h : allActive st) :
    allActive (endSession st sid) := fun s hs =>
  h s ((endSession_sessions_sublist st sid).mem hs)

theorem allActive_markExpired (st : SMState) (sid : String) (h : allActive st) :
    allActive (markExpired st sid) := fun s hs =>
  h s ((markExpired_sessions_sublist st sid).mem hs)

theorem allActive_cleanup (st : SMState) (now : Nat) (h : allActive st) :
    allActive (cleanupStaleSessions st now) := fun s hs =>
  h s ((cleanupStaleSessions_sessions_sublist st now).mem hs)

theorem allActive_applyOp (st : SMState) (op : SMOp) (h : allActive st) :
    allActive (applyOp st op) := by
  cases op with
  | create u c k f t1 t2 t3 => exact allActive_createSession st u c k f t1 t2 t3 h
  | endS sid => exact allActive_endSession st sid h
  | markExp sid => exact allActive_markExpired st sid h
  | activity sid t => exact allActive_updateActivity st sid t h
  | cleanup now => exact allActive_cleanup st now h

theorem allActive_runOps (ops : List SMOp) :
    ∀ st : SMState, allActive st → allActive (runOps st ops) := by
  induction ops with
  | nil => intro st h; exact h
  | cons op ops ih =>
      intro st h
      exact ih (applyOp st op) (allActive_applyOp st op h)

theorem allActive_initState : allActive initState := by
  intro s hs
  simp [initState] at hs

theorem canCreateSession_allowed_counts (st : SMState) (u : Nat)
    (h : (canCreateSession st u).allowed = true) :
    (getUserSessions st u).length < MAX_SESSIONS_PER_USER ∧
      (getActiveSessions st).length < MAX_TOTAL_SESSIONS := by
  unfold canCreateSession at h
  split at h
  · simp at h
  · next h1 =>
      split at h
      · simp at h
      · next h2 => exact ⟨Nat.lt_of_not_le (fun hc => h1 hc),
          Nat.lt_of_not_le (fun hc => h2 hc)⟩

theorem length_getUserSessions_createSession (st : SMState) (u c : Nat)
    (k f : String) (t1 t2 t3 : Nat) (u' : Nat) :
    (getUserSessions (createSession st u c k f t1 t2 t3).2 u').length
      = (getUserSessions st u').length + (if u = u' then 1 else 0) := by
  unfold createSession getUserSessions
  simp only [List.filter_append, List.length_append]
  by_cases h : u = u'
  · simp [h, List.filter, beq_iff_eq]
  · have hb : (u == u') = false := beq_eq_false_iff_ne.mpr h
    simp [h, hb, List.filter]

theorem length_filter_map_eq {α : Type} (f : α → α) (p : α → Bool)
    (hp : ∀ a, p (f a) = p a) (l : List α) :
    ((l.map f).filter p).length = (l.filter p).length := by
  induction l with
  | nil => rfl
  | cons a l ih =>
      simp only [List.map_cons, List.filter_cons, hp a]
      cases h : p a <;> simp [ih]

theorem length_getUserSessions_updateActivity (st : SMState) (sid : String)
    (t : Nat) (u : Nat) :
    (getUserSessions (updateActivity st sid t) u).length
      = (getUserSessions st u).length := by
  unfold updateActivity getUserSessions
  exact length_filter_map_eq _ _ (fun a => by split <;> rfl) st.sessions

theorem length_getUserSessions_le_of_sublist {st st' : SMState} (u : Nat)
    (h : st'.sessions.Sublist st.sessions) :
    (getUserSessions st' u).length ≤ (getUserSessions st u).length :=
  (h.filter _).length_le

theorem endSession_maxSessionTimeMs (st : SMState) (sid : String) :
    (endSession st sid).maxSessionTimeMs = st.maxSessionTimeMs := by
  unfold endSession; split <;> rfl

theorem markExpired_maxSessionTimeMs (st : SMState) (sid : String) :
    (markExpired st sid).maxSessionTimeMs = st.maxSessionTimeMs := by
  unfold markExpired; split <;> rfl

theorem foldl_markExpired_maxSessionTimeMs (l : List Session) :
    ∀ st : SMState,
      ((l.foldl (fun acc s => markExpired acc s.id) st).maxSessionTimeMs)
        = st.maxSessionTimeMs := by
  induction l with
  | nil => intro st; rfl
  | cons a l ih =>
      intro st
      exact (ih (markExpired st a.id)).trans (markExpired_maxSessionTimeMs st a.id)

theorem cleanupStaleSessions_maxSessionTimeMs (st : SMState) (now : Nat) :
    (cleanupStaleSessions st now).maxSessionTimeMs = st.maxSessionTimeMs :=
  foldl_markExpired_maxSessionTimeMs _ st

/-- Timestamp invariant along guarded, clock-monotone executions: every
registry session was stamped with nondecreasing clock samples, so
`createdAt ≤ lastActivity`, `createdAt + maxSessionTimeMs ≤ expiresAt`, and
`lastActivity` never exceeds the latest clock sample. -/
theorem reachG_timestamps {st : SMState} {tm : Nat} (h : ReachG st tm) :
    ∀ s ∈ st.sessions,
      s.createdAt ≤ s.lastActivity ∧
        s.createdAt + st.maxSessionTimeMs ≤ s.expiresAt ∧
        s.lastActivity ≤ tm := by
  induction h with
  | init => intro s hs; simp [initState] at hs
  | @creat st' tm' u c k f t1 t2 t3 hr hallow htm h12 h23 ih =>
      intro s hs
      unfold createSession at hs
      simp only [List.mem_append, List.mem_singleton] at hs
      rcases hs with hs | rfl
      · obtain ⟨ha, hb, hc⟩ := ih s hs
        exact ⟨ha, hb, le_trans hc (le_trans htm (le_trans h12 h23))⟩
      · exact ⟨h12, Nat.add_le_add_right (le_trans h12 h23) _, h23⟩
  | @endS st' tm' sid hr ih =>
      intro s hs
      have hmem := (endSession_sessions_sublist st' sid).mem hs
      rw [endSession_maxSessionTimeMs]
      exact ih s hmem
  | @markExp st' tm' sid hr ih =>
      intro s hs
      have hmem := (markExpired_sessions_sublist st' sid).mem hs
      rw [markExpired_maxSessionTimeMs]
      exact ih s hmem
  | @activity st' tm' sid t hr htm ih =>
      intro s hs
      unfold updateActivity at hs
      simp only [List.mem_map] at hs
      obtain ⟨a, ha, rfl⟩ := hs
      obtain ⟨h1, h2, h3⟩ := ih a ha
      split
      · exact ⟨le_trans h1 (le_trans h3 htm), h2, le_refl _⟩
      · exact ⟨h1, h2, le_trans h3 htm⟩
  | @cleanup st' tm' now hr htm ih =>
      intro s hs
      have hmem := (cleanupStaleSessions_sessions_sublist st' now).mem hs
      rw [cleanupStaleSessions_maxSessionTimeMs]
      obtain ⟨h1, h2, h3⟩ := ih s hmem
      exact ⟨h1, h2, le_trans h3 htm⟩

/-!
## Claims
-/

/-- C1 (counterexample to the claim as stated): `createSession` is itself one
of the enumerated public operations and inserts unconditionally, so the
two-operation sequence that calls it twice for user 1 leaves that user with
2 active sessions, exceeding `MAX_SESSIONS_PER_USER = 1`. -/
theorem per_user_cap_fails_for_unguarded_ops :
    MAX_SESSIONS_PER_USER <
      (getUserSessions
        (runOps initState
          [SMOp.create 1 1 "k1" "a" 0 0 0, SMOp.create 1 2 "k2" "b" 0 0 0])
        1).length := by
  decide

/-- C1 (amended): in every state reachable when each `createSession` call is
admitted by `canCreateSession` immediately beforehand — the discipline the
`POST /sessions/start` route follows — every user holds at most
`MAX_SESSIONS_PER_USER` active sessions. -/
theorem per_user_cap_of_guarded_reach (st : SMState) (tm : Nat)
    (h : ReachG st tm) (u : Nat) :
    (getUserSessions st u).length ≤ MAX_SESSIONS_PER_USER := by
  induction h with
  | init => simp [initState, getUserSessions]
  | @creat st' tm' u0 c k f t1 t2 t3 hr hallow htm h12 h23 ih =>
      rw [length_getUserSessions_createSession]
      by_cases he : u0 = u
      · rw [if_pos he]
        have hlt := (canCreateSession_allowed_counts st' u0 hallow).1
        rw [he] at hlt
        omega
      · rw [if_neg he]
        simpa using ih
  | @endS st' tm' sid hr ih =>
      exact le_trans
        (length_getUserSessions_le_of_sublist u (endSession_sessions_sublist st' sid)) ih
  | @markExp st' tm' sid hr ih =>
      exact le_trans
        (length_getUserSessions_le_of_sublist u (markExpired_sessions_sublist st' sid)) ih
  | @activity st' tm' sid t hr htm ih =>
      rw [length_getUserSessions_updateActivity]
      exact ih
  | @cleanup st' tm' now hr htm ih =>
      exact le_trans
        (length_getUserSessions_le_of_sublist u
          (cleanupStaleSessions_sessions_sublist st' now)) ih

/-- Witness for the amended C1 theorem at a concrete guarded execution. -/
theorem per_user_cap_of_guarded_reach_witness :
    (getUserSessions (createSession initState 1 2 "cid" "sid" 5 6 7).2 1).length
      ≤ MAX_SESSIONS_PER_USER :=
  per_user_cap_of_guarded_reach (createSession initState 1 2 "cid" "sid" 5 6 7).2 7
    (ReachG.creat ReachG.init (by decide) (by decide) (by decide) (by decide)) 1

/-- C2 (counterexample to the claim as stated): `createSession` samples the
clock separately for `createdAt` and for the `Date.now()` inside
`expiresAt`; when one millisecond elapses between those reads (samples
`0, 0, 1`), the returned session has
`expiresAt = 1 + maxSessionTimeMs ≠ createdAt + maxSessionTimeMs`, so the
equality does not hold "exactly". -/
theorem expiresAt_not_exact_counterexample :
    ((createSession initState 1 1 "c" "s" 0 0 1).1).expiresAt
      ≠ ((createSession initState 1 1 "c" "s" 0 0 1).1).createdAt
        + initState.maxSessionTimeMs := by
  decide

/-- C2 (amended): under a monotone clock, every session created by an
admitted `createSession` (and every active session in the registry)
satisfies `lastActivity ≥ createdAt` and
`expiresAt ≥ createdAt + maxSessionTimeMs`; the spec's exact equality
`expiresAt = createdAt + maxSessionTimeMs` holds when the clock does not
advance between the `createdAt` sample and the `Date.now()` sample
(`t1 = t3`, in particular for equal samples `t t t`). -/
theorem session_timestamp_bounds :
    (∀ st tm, ReachG st tm → ∀ s ∈ st.sessions,
        s.createdAt ≤ s.lastActivity ∧
          s.createdAt + st.maxSessionTimeMs ≤ s.expiresAt) ∧
      (∀ st u c k f t,
        ((createSession st u c k f t t t).1).expiresAt
          = ((createSession st u c k f t t t).1).createdAt + st.maxSessionTimeMs) := by
  constructor
  · intro st tm h s hs
    obtain ⟨h1, h2, _⟩ := reachG_timestamps h s hs
    exact ⟨h1, h2⟩
  · intro st u c k f t
    rfl

/-- Witness for the amended C2 theorem at a concrete guarded execution. -/
theorem session_timestamp_bounds_witness :
    ((createSession initState 1 2 "cid" "sid" 5 6 7).1).createdAt
        ≤ ((createSession initState 1 2 "cid" "sid" 5 6 7).1).lastActivity ∧
      ((createSession initState 1 2 "cid" "sid" 5 6 7).1).createdAt
          + ((createSession initState 1 2 "cid" "sid" 5 6 7).2).maxSessionTimeMs
        ≤ ((createSession initState 1 2 "cid" "sid" 5 6 7).1).expiresAt :=
  session_timestamp_bounds.1 (createSession initState 1 2 "cid" "sid" 5 6 7).2 7
    (ReachG.creat ReachG.init (by decide) (by decide) (by decide) (by decide))
    (createSession initState 1 2 "cid" "sid" 5 6 7).1 (by decide)

/-- C6: at any call time `now`, `getExpiredSessions` returns exactly the
registry sessions satisfying
`now - lastActivity > idleTimeoutMs ∨ now > expiresAt`: on every state
reachable by the public operations the additional `status === "active"`
filter excludes nothing, because terminal transitions remove records from
the registry. -/
theorem getExpiredSessions_exact (ops : List SMOp) (now : Nat) :
    getExpiredSessions (runOps initState ops) now
      = (runOps initState ops).sessions.filter
          (fun s =>
            decide (now - s.lastActivity > (runOps initState ops).idleTimeoutMs) ||
              decide (now > s.expiresAt)) := by
  have hact := allActive_runOps ops initState allActive_initState
  unfold getExpiredSessions
  apply List.filter_congr
  intro s hs
  rw [hact s hs]
  simp

/-- C5: `canCreateSession` denies with the per-user reason (which contains
`"active session(s) per user"`) exactly when the user's live active count
has reached `MAX_SESSIONS_PER_USER`; otherwise it denies with the capacity
reason (which contains `"System at capacity"`) exactly when the live total
active count has reached `MAX_TOTAL_SESSIONS`; otherwise it allows.  The
counts are those of `getUserSessions` / `getActiveSessions`, which filter on
`status == "active"` at call time. -/
theorem canCreateSession_characterization (st : SMState) (u : Nat) :
    (canCreateSession st u
          = { allowed := false, reason := some perUserDenialReason }
        ↔ MAX_SESSIONS_PER_USER ≤ (getUserSessions st u).length) ∧
      ((getUserSessions st u).length < MAX_SESSIONS_PER_USER →
        (canCreateSession st u
            = { allowed := false, reason := some capacityDenialReason }
          ↔ MAX_TOTAL_SESSIONS ≤ (getActiveSessions st).length)) ∧
      ((getUserSessions st u).length < MAX_SESSIONS_PER_USER →
        (getActiveSessions st).length < MAX_TOTAL_SESSIONS →
        canCreateSession st u = { allowed := true, reason := none }) ∧
      ("active session(s) per user".data <:+: perUserDenialReason.data) ∧
      ("System at capacity".data <:+: capacityDenialReason.data) := by
  refine ⟨?_, ?_, ?_, by decide, by decide⟩
  · constructor
    · intro heq
      by_contra hlt
      rw [not_le] at hlt
      unfold canCreateSession at heq
      rw [if_neg (not_le.mpr hlt)] at heq
      split at heq
      · exact absurd heq (by decide)
      · exact absurd heq (by decide)
    · intro hge
      unfold canCreateSession
      rw [if_pos hge]
  · intro hlt
    constructor
    · intro heq
      by_contra hlt2
      rw [not_le] at hlt2
      unfold canCreateSession at heq
      rw [if_neg (not_le.mpr hlt), if_neg (not_le.mpr hlt2)] at heq
      exact absurd heq (by decide)
    · intro hge
      unfold canCreateSession
      rw [if_neg (not_le.mpr hlt), if_pos hge]
  · intro h1 h2
    unfold canCreateSession
    rw [if_neg (not_le.mpr h1), if_neg (not_le.mpr h2)]

/-- Witness for the C5 characterization on the empty manager. -/
theorem canCreateSession_characterization_witness :
    canCreateSession initState 1 = { allowed := true, reason := none } :=
  (canCreateSession_characterization initState 1).2.2.1 (by decide) (by decide)

/-- C3 (code evaluated at the failing input): user 7 already holds the
active session `"s1"` for challenge 3 and has no pending key; a new
`POST /sessions/start` for challenge 3 is answered with the 429
per-user-cap rejection, not with 200 `"Existing session found"`, because the
handler runs the `canCreateSession` check (which already denies at one
active session) before the existing-session branch. -/
theorem start_with_existing_session_returns_429 :
    (startHandler (createSession initState 7 3 "c1" "s1" 0 0 0).2
        7 (some 3) (Except.ok "c2") "s2" 5 5 5).1
      = StartResponse.tooMany perUserDenialReason := by
  decide

theorem append_cons_eq_snoc {α : Type} (x : α) :
    ∀ (A l1 l2 : List α), l1 ++ x :: l2 = A ++ [x] → x ∉ A → l1 = A := by
  intro A
  induction A with
  | nil =>
      intro l1 l2 h _
      cases l1 with
      | nil => rfl
      | cons b l1' =>
          simp only [List.nil_append, List.cons_append, List.cons.injEq] at h
          obtain ⟨_, habs⟩ := h
          cases l1' <;> simp at habs
  | cons a A ih =>
      intro l1 l2 h hx
      cases l1 with
      | nil =>
          simp only [List.nil_append, List.cons_append, List.cons.injEq] at h
          obtain ⟨rfl, _⟩ := h
          exact absurd (List.mem_cons_self _ _) hx
      | cons b l1' =>
          simp only [List.cons_append, List.cons.injEq] at h
          obtain ⟨rfl, h'⟩ := h
          rw [ih l1' l2 h' (fun hmem => hx (List.mem_cons_of_mem _ hmem))]

theorem execInspect_not_mem_drained (chunks : List String) :
    DockerEvent.execInspect ∉
      [DockerEvent.execCreate ["/bin/bash", "/challenge/validate.sh"] true true]
        ++ chunks.map DockerEvent.streamData ++ [DockerEvent.streamEnd] := by
  intro h
  simp only [List.mem_append, List.mem_singleton, List.mem_map] at h
  rcases h with (h | ⟨c, _, h⟩) | h <;> exact absurd h (by simp)

/-- C4: `validateChallenge`, on a challenge whose `validate.sh` exists:
whenever the exec is created the output stream is consumed to end-of-stream
before `exec.inspect` is called (every `execInspect` in the trace is
preceded by `streamEnd`); a transport error raised at exec creation,
streaming, or inspection makes it return `Except.ok false` (caught, not
re-thrown); and when all three engine calls succeed it returns `true`
exactly when the inspected exit code is `0`. -/
theorem validateChallenge_contract (env : ValidateEnv)
    (hscript : env.validateScriptExists = true) :
    (∀ l1 l2, (validateChallenge env).1
        = l1 ++ DockerEvent.execInspect :: l2 → DockerEvent.streamEnd ∈ l1) ∧
      (∀ e, env.execCreateResult = Except.error e →
        (validateChallenge env).2 = Except.ok false) ∧
      (∀ e, env.execStartResult = Except.error e →
        (validateChallenge env).2 = Except.ok false) ∧
      (∀ e, env.inspectResult = Except.error e →
        (validateChallenge env).2 = Except.ok false) ∧
      (∀ chunks code, env.execCreateResult = Except.ok () →
        env.execStartResult = Except.ok chunks →
        env.inspectResult = Except.ok code →
        (validateChallenge env).2 = Except.ok (code == some 0)) := by
  obtain ⟨vse, ecr, esr, ir⟩ := env
  simp only at hscript
  subst hscript
  unfold validateChallenge
  simp only [Bool.true_eq_false, if_false]
  cases ecr with
  | error e =>
      dsimp only
      refine ⟨?_, ?_, ?_, ?_, ?_⟩
      · intro l1 l2 h
        have hmem : DockerEvent.execInspect ∈ l1 ++ DockerEvent.execInspect :: l2 := by
          simp
        rw [← h] at hmem
        simp at hmem
      · intro e' _; rfl
      · intro e' _; rfl
      · intro e' _; rfl
      · intro chunks code hc; exact absurd hc (by simp)
  | ok u0 =>
      cases esr with
      | error e =>
          dsimp only
          refine ⟨?_, ?_, ?_, ?_, ?_⟩
          · intro l1 l2 h
            have hmem : DockerEvent.execInspect ∈
                l1 ++ DockerEvent.execInspect :: l2 := by simp
            rw [← h] at hmem
            simp at hmem
          · intro e' hc; exact absurd hc (by simp)
          · intro e' _; rfl
          · intro e' _; rfl
          · intro chunks code _ hs; exact absurd hs (by simp)
      | ok chunks =>
          have horder : ∀ (l1 l2 : List DockerEvent),
              [DockerEvent.execCreate
                  ["/bin/bash", "/challenge/validate.sh"] true true]
                  ++ chunks.map DockerEvent.streamData ++ [DockerEvent.streamEnd]
                  ++ [DockerEvent.execInspect]
                = l1 ++ DockerEvent.execInspect :: l2 →
              DockerEvent.streamEnd ∈ l1 := by
            intro l1 l2 h
            have hl1 := append_cons_eq_snoc DockerEvent.execInspect _ l1 l2
              h.symm (execInspect_not_mem_drained chunks)
            rw [hl1]
            simp
          cases ir with
          | error e =>
              dsimp only
              exact ⟨horder,
                fun e' hc => absurd hc (by simp),
                fun e' hs => absurd hs (by simp),
                fun e' _ => rfl,
                fun chunks' code _ _ hi => absurd hi (by simp)⟩
          | ok code =>
              dsimp only
              refine ⟨horder,
                fun e' hc => absurd hc (by simp),
                fun e' hs => absurd hs (by simp),
                fun e' hi => absurd hi (by simp),
                ?_⟩
              intro chunks' code' _ hs hi
              simp only [Except.ok.injEq] at hs hi
              subst hs; subst hi
              rfl

/-- Witness for the C4 contract at a fully successful concrete run. -/
theorem validateChallenge_contract_witness :
    (validateChallenge
        ⟨true, Except.ok (), Except.ok ["all checks passed"],
          Except.ok (some 0)⟩).2 = Except.ok true :=
  (validateChallenge_contract
      ⟨true, Except.ok (), Except.ok ["all checks passed"], Except.ok (some 0)⟩
      rfl).2.2.2.2 ["all checks passed"] (some 0) rfl rfl rfl

/-- C10: when the resolved challenge directory has no `validate.sh`,
`validateChallenge` throws before creating any exec (empty engine trace,
`Except.error`, not `Except.ok false`), so for an owned active session the
validate endpoint answers 500 (`serverError`, not a 200 failure body) and
the progress database — in particular the attempts table — is left
untouched. -/
theorem missing_validate_script_gives_500_no_attempt (env : ValidateEnv)
    (st : SMState) (db : ProgressDB) (u : Nat) (sid : String) (sess : Session)
    (recordOk : Bool) (pointsResult : Except String Nat) (removeOk : Bool)
    (hscript : env.validateScriptExists = false)
    (hget : getSession st sid = some sess)
    (howner : sess.userId = u)
    (hactive : sess.status = SessionStatus.active) :
    (validateChallenge env).1 = [] ∧
      (∃ msg, (validateChallenge env).2 = Except.error msg) ∧
      validateEndpoint st db u sid env recordOk pointsResult removeOk
        = (ValidateResponse.serverError, db, st) := by
  have hv : validateChallenge env
      = ([], Except.error "Validation script not found") := by
    unfold validateChallenge
    rw [hscript]
    rfl
  refine ⟨by rw [hv], ⟨"Validation script not found", by rw [hv]⟩, ?_⟩
  unfold validateEndpoint validateHandler
  rw [hv, hget]
  dsimp only
  rw [howner, hactive]
  simp

/-- Witness for the C10 theorem at a concrete session and environment. -/
theorem missing_validate_script_gives_500_no_attempt_witness :
    validateEndpoint (createSession initState 7 3 "c1" "s1" 0 0 0).2
        (⟨[], []⟩ : ProgressDB) 7 "s1"
        ⟨false, Except.ok (), Except.ok [], Except.ok (some 0)⟩
        true (Except.ok 100) true
      = (ValidateResponse.serverError, (⟨[], []⟩ : ProgressDB),
          (createSession initState 7 3 "c1" "s1" 0 0 0).2) :=
  (missing_validate_script_gives_500_no_attempt
      ⟨false, Except.ok (), Except.ok [], Except.ok (some 0)⟩
      (createSession initState 7 3 "c1" "s1" 0 0 0).2 (⟨[], []⟩ : ProgressDB)
      7 "s1" (createSession initState 7 3 "c1" "s1" 0 0 0).1
      true (Except.ok 100) true
      rfl (by decide) rfl rfl).2.2

/-- C7: for a user who has already solved the session's challenge
(`hasSolved = true`), a validate request whose script run fully succeeds
with exit code 0 appends exactly one attempt row `(user, challenge, true)`,
inserts no new solve row, and is answered 200 with `success: true` and
`points = 0`. -/
theorem resubmission_after_solve (env : ValidateEnv) (st : SMState)
    (db : ProgressDB) (u : Nat) (sid : String) (sess : Session)
    (chunks : List String) (pts : Nat) (removeOk : Bool)
    (hscript : env.validateScriptExists = true)
    (hcreate : env.execCreateResult = Except.ok ())
    (hstart : env.execStartResult = Except.ok chunks)
    (hinspect : env.inspectResult = Except.ok (some 0))
    (hget : getSession st sid = some sess)
    (howner : sess.userId = u)
    (hactive : sess.status = SessionStatus.active)
    (hsolved : hasSolved db u sess.challengeId = true) :
    (validateEndpoint st db u sid env true (Except.ok pts) removeOk).1
        = ValidateResponse.okSuccess "Congratulations! Challenge solved!" 0 ∧
      (validateEndpoint st db u sid env true (Except.ok pts) removeOk).2.1.attempts
        = db.attempts ++ [(u, sess.challengeId, true)] ∧
      (validateEndpoint st db u sid env true (Except.ok pts) removeOk).2.1.solves
        = db.solves := by
  have hv : (validateChallenge env).2 = Except.ok true := by
    unfold validateChallenge
    rw [hscript, hcreate, hstart, hinspect]
    rfl
  unfold validateEndpoint validateHandler
  rw [hv, hget]
  dsimp only
  rw [howner, hactive]
  simp [recordValidation, hsolved]

/-- Witness for the C7 theorem: user 7 re-validates challenge 3, already in
the solves table. -/
theorem resubmission_after_solve_witness :
    (validateEndpoint (createSession initState 7 3 "c1" "s1" 0 0 0).2
        (⟨[], [(7, 3)]⟩ : ProgressDB) 7 "s1"
        ⟨true, Except.ok (), Except.ok ["ok"], Except.ok (some 0)⟩
        true (Except.ok 100) true).1
      = ValidateResponse.okSuccess "Congratulations! Challenge solved!" 0 :=
  (resubmission_after_solve
      ⟨true, Except.ok (), Except.ok ["ok"], Except.ok (some 0)⟩
      (createSession initState 7 3 "c1" "s1" 0 0 0).2
      (⟨[], [(7, 3)]⟩ : ProgressDB) 7 "s1"
      (createSession initState 7 3 "c1" "s1" 0 0 0).1
      ["ok"] 100 true
      rfl rfl rfl rfl (by decide) rfl rfl (by decide)).1

theorem cleanup_step (g : GatewayState)
    (h1 : g.teardowns ≤ 1)
    (h2 : g.conn = some { cleanedUp := false } → g.teardowns = 0) :
    (cleanup g).teardowns ≤ 1 ∧
      ((cleanup g).conn = some { cleanedUp := false } →
        (cleanup g).teardowns = 0) := by
  unfold cleanup
  rcases hg : g.conn with _ | c
  · dsimp only
    exact ⟨h1, h2⟩
  · rcases c with ⟨b⟩
    cases b with
    | true =>
        dsimp only
        exact ⟨h1, h2⟩
    | false =>
        dsimp only
        constructor
        · rw [h2 hg]
          simp
        · intro habs
          simp at habs

theorem handleTermEvent_step (g : GatewayState) (e : TermEvent)
    (h1 : g.teardowns ≤ 1)
    (h2 : g.conn = some { cleanedUp := false } → g.teardowns = 0) :
    (handleTermEvent g e).teardowns ≤ 1 ∧
      ((handleTermEvent g e).conn = some { cleanedUp := false } →
        (handleTermEvent g e).teardowns = 0) := by
  have he : handleTermEvent g e = cleanup g := by cases e <;> rfl
  rw [he]
  exact cleanup_step g h1 h2

/-- C8: for one registered terminal connection, however many socket `close`
and `error` events, stream `error` and `end` events, and external
`closeConnection` calls arrive — in any order and multiplicity — the PTY
teardown (stream destroy plus removal of the connection record) runs at most
once: the `cleanedUp` latch admits a single `false → true` flip and every
other path returns without acting. -/
theorem pty_teardown_at_most_once (events : List TermEvent) :
    (runTermEvents gatewayInit events).teardowns ≤ 1 := by
  have key : ∀ (l : List TermEvent) (g : GatewayState),
      g.teardowns ≤ 1 →
      (g.conn = some { cleanedUp := false } → g.teardowns = 0) →
      (l.foldl handleTermEvent g).teardowns ≤ 1 := by
    intro l
    induction l with
    | nil => intro g h1 _; exact h1
    | cons e l ih =>
        intro g h1 h2
        obtain ⟨s1, s2⟩ := handleTermEvent_step g e h1 h2
        exact ih (handleTermEvent g e) s1 s2
  exact key events gatewayInit (by decide) (fun _ => rfl)

/-- C9 (counterexample to the claim as stated): for a challenge directory
that has a `setup.sh`, the engine trace of `createContainer` contains no
stream-drain step at all — in particular none before the container id is
returned — because the source only awaits `exec.start({})` and never
consumes the returned stream. -/
theorem setup_stream_drain_missing_counterexample :
    CreateEvent.setupStreamDrained ∉
      (createContainer ⟨true, true, "c1"⟩).1 := by
  decide

/-- C9 (amended): when the challenge directory and its `setup.sh` exist, the
setup exec `["/bin/bash","/challenge/setup.sh"]` is created with stdout and
stderr attached and started, and the operation returns the container id,
but the setup exec's output stream is never consumed — no drain step
precedes (or follows) the return of the container id. -/
theorem setup_exec_attached_started_not_drained (env : CreateEnv)
    (hdir : env.challengeDirExists = true)
    (hsetup : env.setupScriptExists = true) :
    (createContainer env).1
        = [CreateEvent.ensureImage, CreateEvent.containerCreate,
            CreateEvent.containerStart,
            CreateEvent.setupExecCreate
              ["/bin/bash", "/challenge/setup.sh"] true true,
            CreateEvent.setupExecStart,
            CreateEvent.returned env.containerId] ∧
      (createContainer env).2 = Except.ok env.containerId ∧
      CreateEvent.setupStreamDrained ∉ (createContainer env).1 := by
  have h : createContainer env
      = ([CreateEvent.ensureImage, CreateEvent.containerCreate,
          CreateEvent.containerStart,
          CreateEvent.setupExecCreate
            ["/bin/bash", "/challenge/setup.sh"] true true,
          CreateEvent.setupExecStart,
          CreateEvent.returned env.containerId], Except.ok env.containerId) := by
    unfold createContainer
    rw [hdir, hsetup]
    rfl
  refine ⟨by rw [h], by rw [h], ?_⟩
  rw [h]
  simp

/-- Witness for the amended C9 theorem at a concrete environment. -/
theorem setup_exec_attached_started_not_drained_witness :
    (createContainer ⟨true, true, "c9"⟩).2 = Except.ok "c9" :=
  (setup_exec_attached_started_not_drained ⟨true, true, "c9"⟩ rfl rfl).2.1

end SudoOps
